import Mathlib

/-!
Shallow embedding of the metaocr title-extraction pipeline (src/main.py).

The script resolves a title per PDF: it prefers document metadata
(`form_title`), and otherwise runs a visual pipeline over the first page
(rasterize, layout detection, crop, OCR).  Pure string manipulation is
modelled over `List Char`; the external collaborators (pdfplumber,
PaddleOCR models, PIL) are modelled by their outputs, supplied as fields
of an environment record, and PIL's `Image.crop` by its documented
semantics.  Side effects (directory creation, saved images, `print`
calls) are recorded as an event trace.
-/

namespace MetaOcr

/-! ## Character classes and Python string primitives -/

/-- Python regex `\w` on the ASCII range: letters, digits and underscore. -/
def isWordChar (c : Char) : Bool := c.isAlphanum || c = '_'

/-- The whitespace characters Python's `str.strip()` removes (ASCII range). -/
def isPySpace (c : Char) : Bool :=
  c = ' ' || c = '\t' || c = '\n' || c = '\r' || c = '\x0b' || c = '\x0c'

/-- Python `str.strip()`: drop leading and trailing whitespace. -/
def pyStrip (l : List Char) : List Char :=
  ((l.dropWhile isPySpace).reverse.dropWhile isPySpace).reverse

/-- `re.sub(r'[^\w]+', '_', -)`: replace every maximal run of non-word
characters by a single underscore.  The `Bool` flag records whether the
previous character was part of a non-word run already replaced. -/
def subNonWordAux : Bool → List Char → List Char
  | _, [] => []
  | inRun, c :: cs =>
    if isWordChar c then c :: subNonWordAux false cs
    else if inRun then subNonWordAux true cs
    else '_' :: subNonWordAux true cs

def subNonWord (l : List Char) : List Char := subNonWordAux false l

/-- `re.sub(r'[^\w]+', '_', s.strip())`: the normalization main.py applies
to the title, author and (non-packed) creation-date metadata fields. -/
def normField (l : List Char) : List Char := subNonWord (pyStrip l)

/-- `re.sub(r'_+', '_', -)`: collapse every run of underscores to one. -/
def collapseUnderAux : Bool → List Char → List Char
  | _, [] => []
  | inRun, c :: cs =>
    if c = '_' then
      if inRun then collapseUnderAux true cs
      else '_' :: collapseUnderAux true cs
    else c :: collapseUnderAux false cs

def collapseUnder (l : List Char) : List Char := collapseUnderAux false l

/-- Python `str.strip('_')`: drop leading and trailing underscores. -/
def stripUnder (l : List Char) : List Char :=
  ((l.dropWhile (· = '_')).reverse.dropWhile (· = '_')).reverse

/-! ## form_title (src/main.py lines 32-52) -/

/-- A match of the regex `D:(\d{14})` anchored at the head of the list:
the 14 digits following `D:`, when they are there. -/
def packedAt (l : List Char) : Option (List Char) :=
  match l with
  | c1 :: c2 :: rest =>
    if c1 = 'D' ∧ c2 = ':' then
      let ds := rest.take 14
      if ds.length = 14 ∧ ds.all Char.isDigit then some ds else none
    else none
  | _ => none

/-- `re.search(r'D:(\d{14})', -)`: the capture group of the leftmost
match, scanning positions left to right. -/
def findPacked : List Char → Option (List Char)
  | [] => none
  | c :: cs =>
    match packedAt (c :: cs) with
    | some ds => some ds
    | none => findPacked cs

/-- The numeric value of a digit string. -/
def digitsVal (l : List Char) : Nat := l.foldl (fun a c => 10 * a + (c.toNat - 48)) 0

def isLeapYear (y : Nat) : Bool := (y % 4 = 0 && y % 100 ≠ 0) || y % 400 = 0

def daysInMonth (y m : Nat) : Nat :=
  if m = 2 then (if isLeapYear y then 29 else 28)
  else if m = 4 || m = 6 || m = 9 || m = 11 then 30 else 31

/-- Whether `datetime.strptime(ds, "%Y%m%d%H%M%S")` succeeds on a string
of 14 digits: a calendar-valid timestamp with year at least 1
(`datetime.MINYEAR`). -/
def validTimestamp (ds : List Char) : Bool :=
  let y := digitsVal (ds.take 4)
  let mo := digitsVal ((ds.drop 4).take 2)
  let d := digitsVal ((ds.drop 6).take 2)
  let h := digitsVal ((ds.drop 8).take 2)
  let mi := digitsVal ((ds.drop 10).take 2)
  let s := digitsVal ((ds.drop 12).take 2)
  1 ≤ y && 1 ≤ mo && mo ≤ 12 && 1 ≤ d && d ≤ daysInMonth y mo &&
    h ≤ 23 && mi ≤ 59 && s ≤ 59

/-- `dt.strftime("%Y-%m-%d_%H-%M-%S")` on the parsed 14-digit run: the
digits are re-emitted zero-padded exactly as captured, so the format is
separator insertion into the run. -/
def reformatTimestamp (ds : List Char) : List Char :=
  ds.take 4 ++ '-' :: (ds.drop 4).take 2 ++ '-' :: (ds.drop 6).take 2 ++
    '_' :: (ds.drop 8).take 2 ++ '-' :: (ds.drop 10).take 2 ++
    '-' :: (ds.drop 12).take 2

/-- `f"{title}[{author}_{creation_date}]"` followed by the post-processing
`re.sub(r'_+', '_', -).strip('_')` of main.py lines 50-51. -/
def assembleTitle (t a d : List Char) : List Char :=
  stripUnder (collapseUnder (t ++ '[' :: a ++ '_' :: d ++ [']']))

/-- `form_title` (main.py lines 32-52).  `Except Unit String`: `.error ()`
models the `ValueError` that `datetime.strptime` raises when the captured
14 digits are not a valid timestamp; that exception propagates out of
`form_title` uncaught. -/
def form_title (title author creation_date : String) : Except Unit String :=
  match findPacked creation_date.data with
  | some ds =>
    if validTimestamp ds then
      .ok ⟨assembleTitle (normField title.data) (normField author.data)
            (reformatTimestamp ds)⟩
    else .error ()
  | none =>
    .ok ⟨assembleTitle (normField title.data) (normField author.data)
          (normField creation_date.data)⟩

/-! ## File-name sanitization (capture_title, main.py line 141) -/

/-- Python `str.replace('.pdf', '')`: remove every (leftmost-first,
non-overlapping) occurrence of the substring `.pdf`. -/
def removePdf : List Char → List Char
  | '.' :: 'p' :: 'd' :: 'f' :: rest => removePdf rest
  | c :: rest => c :: removePdf rest
  | [] => []

/-- The character class `[\w.-]` of the sanitization regex. -/
def isFileChar (c : Char) : Bool := isWordChar c || c = '.' || c = '-'

/-- `re.sub(r'[^\w.-]', '_', -)`: each disallowed character is replaced
by an underscore individually (no run collapsing here). -/
def subFileChars : List Char → List Char
  | [] => []
  | c :: cs => (if isFileChar c then c else '_') :: subFileChars cs

/-- `safe_name = re.sub(r'[^\w.-]', '_', pdf_current_name.replace('.pdf', ''))`. -/
def safeName (name : String) : String := ⟨subFileChars (removePdf name.data)⟩

example : form_title "Deep Learning" "Ian Goodfellow" "D:20230901000000Z" =
    .ok "Deep_Learning[Ian_Goodfellow_2023-09-01_00-00-00]" := rfl

example : form_title " My  Title " "A. B." "2016" = .ok "My_Title[A_B_2016]" := rfl

example : safeName "my book.pdf" = "my_book" := by decide

/-! ## Images and PIL crop (detect_title_and_crop, main.py lines 94-99) -/

/-- A raster image: a width, a height and a pixel buffer (grayscale value
per coordinate; reads outside the buffer are irrelevant). -/
structure RawImage where
  width : Nat
  height : Nat
  pixel : Nat → Nat → Nat

/-- Python `int(-)` on a rational: truncation toward zero, as applied to
each title-box coordinate by `map(int, title_box)` (main.py line 95). -/
def pyInt (q : ℚ) : Int := q.num.tdiv q.den

/-- The pixel content PIL's crop produces for a non-inverted rectangle
`(x1, y1, x2, y2)`: the full requested extent, NOT clamped to the image,
with pixels outside the source bounds filled with black (0). -/
def cropRegion (img : RawImage) (x1 y1 x2 y2 : Int) : RawImage where
  width := (x2 - x1).toNat
  height := (y2 - y1).toNat
  pixel i j :=
    let xi := x1 + (i : Int)
    let yj := y1 + (j : Int)
    if 0 ≤ xi ∧ xi < (img.width : Int) ∧ 0 ≤ yj ∧ yj < (img.height : Int) then
      img.pixel xi.toNat yj.toNat
    else 0

/-- PIL `Image.crop((x1, y1, x2, y2))`: for an inverted rectangle —
`x2 < x1` (Pillow's "Coordinate right is less than left" check) or
`y2 < y1` — the call raises `ValueError`, modelled by `.error ()`;
otherwise it returns the un-clamped `cropRegion` (a degenerate rectangle
with `x2 = x1` or `y2 = y1` is accepted and yields a zero-area image). -/
def pilCrop (img : RawImage) (x1 y1 x2 y2 : Int) : Except Unit RawImage :=
  if x2 < x1 ∨ y2 < y1 then .error ()
  else .ok (cropRegion img x1 y1 x2 y2)

/-! ## Layout detection and OCR model outputs -/

/-- One box of the layout model's response:
`{label, coordinate = (x1, y1, x2, y2), score}`. -/
structure LayoutBox where
  label : String
  x1 : ℚ
  y1 : ℚ
  x2 : ℚ
  y2 : ℚ
  score : ℚ
deriving DecidableEq

/-- One element of `model.predict(...)`: the response for one image. -/
structure LayoutResponse where
  boxes : List LayoutBox
deriving DecidableEq

/-- One element of `ocr.predict(...)`: recognized text fragments in
detection order with their confidence scores. -/
structure OcrRes where
  rec_texts : List String
  rec_scores : List ℚ
deriving DecidableEq

/-- The box the `for box in response['boxes']` loop of
detect_title_and_crop settles on: the FIRST box labeled `doc_title` in
the order the model returned them (the loop breaks at the first hit). -/
def selectTitleBox (boxes : List LayoutBox) : Option LayoutBox :=
  boxes.find? (fun b => b.label == "doc_title")

/-! ## Side-effect trace -/

/-- Observable side effects of the visual pipeline: directory creation,
image writes and `print` calls (prints that only echo model internals are
omitted). -/
inductive Ev where
  | mkdir (dir : String)
  | savedFirstPage
  | cropSaved
  | printed (s : String)
deriving DecidableEq

/-- Per-document environment standing for the external collaborators:
the outcome of `page.to_image(resolution=200)` (which can raise), the
layout model's output and the OCR model's output. -/
structure OcrEnv where
  rasterize : Except Unit RawImage
  layoutOutput : List LayoutResponse
  ocrResult : List OcrRes

/-! ## Pipeline steps (main.py lines 72-155) -/

/-- `detect_title_and_crop` (main.py lines 72-107): empty model output or
no `doc_title` box yields `none`; otherwise the first `doc_title` box is
cropped out of the first-page image.  Returns the optional cropped image
and the recorded effects.  The crop is modelled by `cropRegion`: a layout
model's bounding boxes are non-inverted rectangles, so the `ValueError`
branch of `pilCrop` is not threaded through the pipeline trace. -/
def detect_title_and_crop (safe_name : String) (img : RawImage)
    (layoutOutput : List LayoutResponse) : Option RawImage × List Ev :=
  match layoutOutput with
  | [] => (none, [.printed "⚠️ LayoutDetection returned empty output"])
  | response :: _ =>
    match selectTitleBox response.boxes with
    | none => (none, [.printed "❌ No title detected! Bypassing current PDF."])
    | some b =>
      (some (cropRegion img (pyInt b.x1) (pyInt b.y1) (pyInt b.x2) (pyInt b.y2)),
       [.cropSaved,
        .printed ("✅ Title image of " ++ safe_name ++ " detected, cropped, and saved")])

/-- `title_recognition` (main.py lines 113-130): prints the assembled
title (underscore-join of `rec_texts` of the first result) or a warning
when the OCR model returned no result.  It returns nothing. -/
def title_recognition (ocrResult : List OcrRes) : List Ev :=
  match ocrResult with
  | [] => [.printed "⚠️ No OCR result returned."]
  | res :: _ => [.printed ("Full title: " ++ String.intercalate "_" res.rec_texts)]

/-- `capture_title` (main.py lines 136-155): make the per-document output
directory, save the first page (the rasterization can raise, modelled by
`env.rasterize`), then detect/crop and, when a title image was produced,
recognize.  Its value is the effect trace; it returns no title. -/
def capture_title (env : OcrEnv) (pdf_current_name : String) :
    Except Unit (List Ev) :=
  let safe_name := safeName pdf_current_name
  match env.rasterize with
  | .error e => .error e
  | .ok img =>
    let d := detect_title_and_crop safe_name img env.layoutOutput
    let recEvs := match d.1 with
      | some _ => title_recognition env.ocrResult
      | none => []
    .ok (.mkdir ("./output/" ++ safe_name) :: .savedFirstPage :: (d.2 ++ recEvs))

/-! ## Orchestrator (processPdf, main.py lines 161-194, and the batch
loop, lines 200-202) -/

/-- One page as pdfplumber exposes it to main.py: the extracted text
(empty for `None`) and the number of embedded images. -/
structure PDFPage where
  extractedText : String
  images : Nat

/-- One document: its file name, metadata fields (empty string for an
absent key, matching `pdf.metadata.get(-, "")`) and pages. -/
structure PDFDoc where
  name : String
  metaTitle : String
  metaAuthor : String
  metaCreationDate : String
  pages : List PDFPage

/-- `processPdf` (main.py lines 161-194).  The value is the returned
result string together with the visual pipeline's effect trace;
`.error ()` models an uncaught exception (a rasterization failure from
`capture_title`, or `ValueError` out of `form_title`). -/
def processPdf (doc : PDFDoc) (env : OcrEnv) : Except Unit (String × List Ev) :=
  match doc.pages with
  | [] => .ok ("No pages found in this PDF", [])
  | first_page :: _ =>
    if doc.metaTitle ≠ "" then
      (form_title doc.metaTitle doc.metaAuthor doc.metaCreationDate).map
        (fun t => (t, []))
    else
      let has_text : Bool := first_page.extractedText ≠ ""
      let has_image : Bool := first_page.images ≠ 0
      if !has_text && !has_image then .ok ("Page 1 is empty", [])
      else if has_image then
        match capture_title env doc.name with
        | .error e => .error e
        | .ok evs =>
          .ok ("System unable to read the first page",
               .printed "Page contains image(s) — OCR required" :: evs)
      else .ok ("System unable to read the first page", [])

/-- The batch loop (main.py lines 200-202): process the enumerated PDFs
in order, printing each result.  There is no try/except around
`processPdf`, so an exception from one document terminates the loop: the
`Bool` records whether the loop was aborted by an exception. -/
def runBatch : List (PDFDoc × OcrEnv) → List String × Bool
  | [] => ([], false)
  | (d, e) :: rest =>
    match processPdf d e with
    | .error _ => ([], true)
    | .ok (s, _) =>
      let r := runBatch rest
      (s :: r.1, r.2)

/-! ## Theorems -/

/-- C5: for every document with zero pages, the resolution result is the
"no pages" sentinel regardless of the document's metadata content — the
page-count check short-circuits before the metadata title is consulted. -/
theorem c5_no_pages_short_circuits (doc : PDFDoc) (env : OcrEnv)
    (h : doc.pages = []) :
    processPdf doc env = .ok ("No pages found in this PDF", []) := by
  unfold processPdf
  rw [h]

/-- A zero-page document whose metadata nevertheless carries a title,
author and creation date. -/
def c5Doc : PDFDoc :=
  { name := "empty.pdf", metaTitle := "Some Title", metaAuthor := "Somebody",
    metaCreationDate := "D:20230901000000Z", pages := [] }

def c5Env : OcrEnv := { rasterize := .error (), layoutOutput := [], ocrResult := [] }

/-- C5 witness: the zero-page document with non-empty metadata resolves
to the "no pages" sentinel. -/
theorem c5_witness :
    processPdf c5Doc c5Env = .ok ("No pages found in this PDF", []) :=
  c5_no_pages_short_circuits c5Doc c5Env rfl

/-- C6: a document with empty metadata title whose first page has
extractable text but no embedded images resolves to the "unable to read"
sentinel with an empty effect trace: no rasterization, layout detection,
cropping or recognition step runs. -/
theorem c6_text_only_skips_ocr (doc : PDFDoc) (env : OcrEnv)
    (p : PDFPage) (rest : List PDFPage)
    (hp : doc.pages = p :: rest) (hm : doc.metaTitle = "")
    (htext : p.extractedText ≠ "") (himg : p.images = 0) :
    processPdf doc env = .ok ("System unable to read the first page", []) := by
  unfold processPdf
  rw [hp]
  simp [hm, htext, himg]

def c6Doc : PDFDoc :=
  { name := "textual.pdf", metaTitle := "", metaAuthor := "", metaCreationDate := "",
    pages := [{ extractedText := "Chapter 1", images := 0 }] }

def c6Env : OcrEnv :=
  { rasterize := .ok { width := 100, height := 100, pixel := fun _ _ => 0 },
    layoutOutput := [], ocrResult := [] }

/-- C6 witness: a text-only first page yields the fallback sentinel and
an empty trace. -/
theorem c6_witness :
    processPdf c6Doc c6Env = .ok ("System unable to read the first page", []) :=
  c6_text_only_skips_ocr c6Doc c6Env
    { extractedText := "Chapter 1", images := 0 } [] rfl rfl (by decide) rfl

def c1Page : PDFPage := { extractedText := "", images := 3 }

def c1Doc : PDFDoc :=
  { name := "scan.pdf", metaTitle := "", metaAuthor := "", metaCreationDate := "",
    pages := [c1Page] }

def c1Img : RawImage := { width := 1700, height := 2200, pixel := fun _ _ => 0 }

def c1Box : LayoutBox :=
  { label := "doc_title", x1 := 10, y1 := 20, x2 := 200, y2 := 60, score := 91/100 }

/-- An environment in which every step of the OCR path succeeds:
rasterization returns an image, layout detection returns a `doc_title`
box, recognition returns the fragments `["Deep", "Learning"]`. -/
def c1Env : OcrEnv :=
  { rasterize := .ok c1Img, layoutOutput := [⟨[c1Box]⟩],
    ocrResult := [⟨["Deep", "Learning"], [1/2, 3/4]⟩] }

/-- C1 counterexample: a document on the OCR path (empty metadata title,
first page bears images) whose rasterization, detection and recognition
all succeed.  The assembled title `Deep_Learning` is only printed; the
per-document result value is the generic unable-to-read fallback, which
the claim says can never happen. -/
theorem c1_counterexample :
    c1Doc.metaTitle = "" ∧ c1Doc.pages = [c1Page] ∧ c1Page.images ≠ 0 ∧
    c1Env.rasterize.isOk = true ∧
    processPdf c1Doc c1Env =
      .ok ("System unable to read the first page",
        [.printed "Page contains image(s) — OCR required",
         .mkdir "./output/scan", .savedFirstPage, .cropSaved,
         .printed "✅ Title image of scan detected, cropped, and saved",
         .printed "Full title: Deep_Learning"]) :=
  ⟨rfl, rfl, by decide, rfl, rfl⟩

/-- C1 amended: on the OCR path with successful rasterization the
per-document result value is always the generic fallback string "System
unable to read the first page"; the OCR outcome (assembled title or its
sentinels) is only printed by `capture_title`/`title_recognition`, never
returned. -/
theorem c1_amended_ocr_result_is_fallback (doc : PDFDoc) (env : OcrEnv)
    (p : PDFPage) (rest : List PDFPage) (img : RawImage)
    (hp : doc.pages = p :: rest) (hm : doc.metaTitle = "")
    (hi : p.images ≠ 0) (hr : env.rasterize = .ok img) :
    ∃ evs, processPdf doc env =
      .ok ("System unable to read the first page", evs) := by
  unfold processPdf
  rw [hp]
  simp only [hm, ne_eq, not_true_eq_false, if_false, ite_not]
  unfold capture_title
  rw [hr]
  simp [hi]

/-- C1 witness for the amended statement: the fully successful OCR run
returns the fallback string. -/
theorem c1_witness :
    ∃ evs, processPdf c1Doc c1Env =
      .ok ("System unable to read the first page", evs) :=
  c1_amended_ocr_result_is_fallback c1Doc c1Env c1Page [] c1Img rfl rfl
    (by decide) rfl

/-- A `doc_title` box with low confidence and a smaller area. -/
def c2BoxA : LayoutBox :=
  { label := "doc_title", x1 := 0, y1 := 0, x2 := 10, y2 := 5, score := 2/5 }

/-- A `doc_title` box with the highest confidence and a larger area. -/
def c2BoxB : LayoutBox :=
  { label := "doc_title", x1 := 0, y1 := 0, x2 := 10, y2 := 8, score := 91/100 }

/-- A box with a different label, ignored by the selection loop. -/
def c2BoxText : LayoutBox :=
  { label := "text", x1 := 0, y1 := 30, x2 := 10, y2 := 60, score := 99/100 }

/-- C2 counterexample: with two `doc_title` boxes of confidences 0.4 and
0.91, the loop selects the 0.4 box because it comes first — not the
maximum-confidence box — and permuting the input changes the selection. -/
theorem c2_counterexample :
    selectTitleBox [c2BoxA, c2BoxB] = some c2BoxA ∧
    c2BoxA.score < c2BoxB.score ∧
    selectTitleBox [c2BoxB, c2BoxA] = some c2BoxB ∧
    c2BoxA ≠ c2BoxB := by
  refine ⟨rfl, ?_, rfl, ?_⟩
  · norm_num [c2BoxA, c2BoxB]
  · intro h
    have h2 := congrArg LayoutBox.score h
    norm_num [c2BoxA, c2BoxB] at h2

/-- C2 amended: the selected TitleCandidate is the FIRST box labeled
`doc_title` in the order the layout model returned the boxes (confidence,
area and position are never consulted), so the selection is
order-dependent. -/
theorem c2_amended_first_doc_title (pre post : List LayoutBox) (b : LayoutBox)
    (hpre : pre.all (fun x => !(x.label == "doc_title")) = true)
    (hb : b.label = "doc_title") :
    selectTitleBox (pre ++ b :: post) = some b := by
  induction pre with
  | nil =>
    simp only [List.nil_append, selectTitleBox]
    rw [List.find?_cons_of_pos]
    simp [hb]
  | cons x xs ih =>
    simp only [List.all_cons, Bool.and_eq_true] at hpre
    simp only [List.cons_append, selectTitleBox]
    rw [List.find?_cons_of_neg]
    · exact ih hpre.2
    · simpa using hpre.1

/-- C2 witness for the amended statement: with a differently-labeled box
first, the first `doc_title` box is selected. -/
theorem c2_witness : selectTitleBox [c2BoxText, c2BoxB] = some c2BoxB :=
  c2_amended_first_doc_title [c2BoxText] [] c2BoxB (by decide) rfl

/-- The printed result string of a processed document (empty for a
document whose processing raised). -/
def okResultStr (r : Except Unit (String × List Ev)) : String :=
  match r with
  | .ok (s, _) => s
  | .error _ => ""

def c3GoodA : PDFDoc :=
  { name := "a.pdf", metaTitle := "T", metaAuthor := "", metaCreationDate := "",
    pages := [{ extractedText := "x", images := 0 }] }

def c3GoodB : PDFDoc :=
  { name := "b.pdf", metaTitle := "U", metaAuthor := "", metaCreationDate := "",
    pages := [{ extractedText := "y", images := 0 }] }

/-- A scanned document whose rasterization will fail. -/
def c3Bad : PDFDoc :=
  { name := "bad.pdf", metaTitle := "", metaAuthor := "", metaCreationDate := "",
    pages := [{ extractedText := "", images := 1 }] }

def c3Env : OcrEnv := { rasterize := .error (), layoutOutput := [], ocrResult := [] }

/-- C3 counterexample: a batch of 3 documents where the second raises a
rasterization failure yields only 1 outcome, not 3 — the uncaught
exception terminates the loop and the third document is never processed. -/
theorem c3_counterexample :
    runBatch [(c3GoodA, c3Env), (c3Bad, c3Env), (c3GoodB, c3Env)] =
      (["T[_]"], true) ∧
    [(c3GoodA, c3Env), (c3Bad, c3Env), (c3GoodB, c3Env)].length = 3 ∧
    (["T[_]"] : List String).length ≠ 3 :=
  ⟨rfl, rfl, by decide⟩

/-- C3 amended: outcomes are produced in enumeration order, but a
document whose processing raises terminates the batch loop: the documents
before it each yield their outcome, and it and every later document yield
none. -/
theorem c3_amended_batch_aborts (pre post : List (PDFDoc × OcrEnv))
    (d : PDFDoc) (e : OcrEnv)
    (hpre : pre.all (fun x => (processPdf x.1 x.2).isOk) = true)
    (hbad : (processPdf d e).isOk = false) :
    runBatch (pre ++ (d, e) :: post) =
      (pre.map (fun x => okResultStr (processPdf x.1 x.2)), true) := by
  induction pre with
  | nil =>
    simp only [List.nil_append, List.map_nil]
    unfold runBatch
    cases h : processPdf d e with
    | error err => rfl
    | ok v => rw [h] at hbad; simp [Except.isOk, Except.toBool] at hbad
  | cons x xs ih =>
    simp only [List.all_cons, Bool.and_eq_true] at hpre
    simp only [List.cons_append, List.map_cons]
    unfold runBatch
    cases h : processPdf x.1 x.2 with
    | error err => rw [h] at hpre; simp [Except.isOk, Except.toBool] at hpre
    | ok v =>
      have := ih hpre.2
      rw [this]
      simp [okResultStr, h]

/-- C3 witness for the amended statement: in a batch whose second
document raises, exactly the first document's outcome is produced and the
loop aborts. -/
theorem c3_witness :
    runBatch [(c3GoodA, c3Env), (c3Bad, c3Env), (c3GoodB, c3Env)] =
      ([okResultStr (processPdf c3GoodA c3Env)], true) :=
  c3_amended_batch_aborts [(c3GoodA, c3Env)] [(c3GoodB, c3Env)] c3Bad c3Env
    (by decide) (by decide)

/-- The crop rectangle the claim describes: each coordinate clamped to
the image extent before cropping (this is the spec's mandated policy,
stated here only to compare it with what the code does). -/
def clampedCropSize (w h : Nat) (x1 y1 x2 y2 : Int) : Nat × Nat :=
  ((min x2 (w : Int) - max x1 0).toNat, (min y2 (h : Int) - max y1 0).toNat)

def c4Img : RawImage := { width := 100, height := 100, pixel := fun _ _ => 7 }

/-- C4 counterexample: for the well-formed box (50, 50, 150, 150) on a
100 × 100 image — partly outside the bounds — the code's crop succeeds
and keeps the full requested 100 × 100 extent (padding the outside with
black) instead of clamping to the 50 × 50 in-bounds part, so the
cropping step does not clamp the rectangle to the image extent. -/
theorem c4_counterexample :
    (pilCrop c4Img 50 50 150 150).map (fun out => (out.width, out.height)) =
      .ok (100, 100) ∧
    clampedCropSize 100 100 50 50 150 150 = (50, 50) ∧
    ((100 : Nat), (100 : Nat)) ≠ ((50 : Nat), (50 : Nat)) := by
  refine ⟨rfl, rfl, by decide⟩

/-- C4 amended: the crop passes the integer-rounded coordinates to PIL
`Image.crop` unchanged, with no clamping to the image extent.  For an
inverted rectangle (`x2 < x1` or `y2 < y1`) the crop raises `ValueError`.
For a well-formed rectangle it never raises: the output measures
`(x2-x1) × (y2-y1)` whatever the image bounds, pixels at in-bounds
offsets are taken from the source image (out-of-bounds area is
black-filled), and the crop has zero area exactly when `x2 = x1` or
`y2 = y1` — bounds play no part in that. -/
theorem c4_amended_crop_no_clamp (img : RawImage) (x1 y1 x2 y2 : Int) :
    (x2 < x1 ∨ y2 < y1 → pilCrop img x1 y1 x2 y2 = .error ()) ∧
    (x1 ≤ x2 → y1 ≤ y2 → ∃ out, pilCrop img x1 y1 x2 y2 = .ok out ∧
      out.width = (x2 - x1).toNat ∧
      out.height = (y2 - y1).toNat ∧
      (out.width = 0 ∨ out.height = 0 ↔ x2 = x1 ∨ y2 = y1) ∧
      (∀ i j : Nat, 0 ≤ x1 + (i : Int) → x1 + (i : Int) < (img.width : Int) →
        0 ≤ y1 + (j : Int) → y1 + (j : Int) < (img.height : Int) →
        out.pixel i j =
          img.pixel (x1 + (i : Int)).toNat (y1 + (j : Int)).toNat)) := by
  constructor
  · intro h
    unfold pilCrop
    rw [if_pos h]
  · intro hx hy
    refine ⟨cropRegion img x1 y1 x2 y2, ?_, rfl, rfl, ?_, ?_⟩
    · unfold pilCrop
      rw [if_neg (by omega)]
    · constructor
      · intro h
        rcases h with h | h
        · left
          have := Int.toNat_eq_zero.mp h
          omega
        · right
          have := Int.toNat_eq_zero.mp h
          omega
      · intro h
        rcases h with h | h
        · left
          apply Int.toNat_eq_zero.mpr
          omega
        · right
          apply Int.toNat_eq_zero.mpr
          omega
    · intro i j h1 h2 h3 h4
      simp only [cropRegion]
      rw [if_pos ⟨h1, h2, h3, h4⟩]

/-- Every character that `subNonWordAux` emits is a word character: word
characters are kept and non-word runs become the (word) character `_`. -/
theorem subNonWordAux_all_word (l : List Char) :
    ∀ (b : Bool), ∀ c ∈ subNonWordAux b l, isWordChar c = true := by
  induction l with
  | nil => intro b c hc; simp [subNonWordAux] at hc
  | cons x xs ih =>
    intro b c hc
    by_cases hx : isWordChar x = true
    · rw [subNonWordAux, if_pos hx] at hc
      rcases List.mem_cons.mp hc with h | h
      · rw [h]; exact hx
      · exact ih false c h
    · rw [subNonWordAux, if_neg hx] at hc
      cases b with
      | true => exact ih true c hc
      | false =>
        rcases List.mem_cons.mp hc with h | h
        · rw [h]; rfl
        · exact ih true c h

/-- A word character is not Python whitespace. -/
theorem word_not_space (c : Char) (h : isWordChar c = true) : isPySpace c = false := by
  cases hs : isPySpace c with
  | false => rfl
  | true =>
    exfalso
    simp only [isPySpace, Bool.or_eq_true, decide_eq_true_eq] at hs
    rcases hs with ((((h1 | h1) | h1) | h1) | h1) | h1 <;> subst h1 <;>
      exact absurd h (by decide)

theorem dropWhile_eq_self_of_none (p : Char → Bool) (l : List Char)
    (h : ∀ c ∈ l, p c = false) : l.dropWhile p = l := by
  cases l with
  | nil => rfl
  | cons x xs => simp [List.dropWhile_cons, h x (List.mem_cons_self x xs)]

theorem pyStrip_of_all_word (l : List Char) (h : ∀ c ∈ l, isWordChar c = true) :
    pyStrip l = l := by
  unfold pyStrip
  have hs : ∀ c ∈ l, isPySpace c = false := fun c hc => word_not_space c (h c hc)
  rw [dropWhile_eq_self_of_none _ _ hs,
      dropWhile_eq_self_of_none _ _ (fun c hc => hs c (List.mem_reverse.mp hc)),
      List.reverse_reverse]

theorem subNonWordAux_of_all_word (l : List Char) (b : Bool)
    (h : ∀ c ∈ l, isWordChar c = true) : subNonWordAux b l = l := by
  induction l generalizing b with
  | nil => rfl
  | cons x xs ih =>
    rw [subNonWordAux, if_pos (h x (List.mem_cons_self x xs))]
    rw [ih false (fun c hc => h c (List.mem_cons_of_mem x hc))]

/-- C7 amended: the per-field normalization (trim whitespace, then
collapse each non-word run to one underscore) is idempotent: applied to
its own output it is the identity.  `form_title` as a whole is NOT
idempotent, because the assembled form appends a bracketed
`[author_date]` suffix whose brackets are non-word characters. -/
theorem c7_amended_normField_idem (s : List Char) :
    normField (normField s) = normField s := by
  have hword : ∀ c ∈ normField s, isWordChar c = true :=
    fun c hc => subNonWordAux_all_word (pyStrip s) false c hc
  have h1 : pyStrip (normField s) = normField s := pyStrip_of_all_word _ hword
  have h2 : subNonWordAux false (normField s) = normField s :=
    subNonWordAux_of_all_word _ _ hword
  calc normField (normField s) = subNonWordAux false (pyStrip (normField s)) := rfl
    _ = subNonWordAux false (normField s) := by rw [h1]
    _ = normField s := h2

/-- C7 counterexample: applying `form_title` to its own output (as the
title, with empty author and empty creation date) changes the string: the
brackets of the previous output collapse to underscores and a fresh
`[_]` suffix is appended. -/
theorem c7_counterexample :
    form_title "Deep Learning" "Ian Goodfellow" "2016" =
      .ok "Deep_Learning[Ian_Goodfellow_2016]" ∧
    form_title "Deep_Learning[Ian_Goodfellow_2016]" "" "" =
      .ok "Deep_Learning_Ian_Goodfellow_2016_[_]" ∧
    ("Deep_Learning_Ian_Goodfellow_2016_[_]" : String) ≠
      "Deep_Learning[Ian_Goodfellow_2016]" :=
  ⟨rfl, rfl, by decide⟩

/-- C8: whenever the creation-date string contains a match of
`D:(\d{14})` whose 14 captured digits do not form a valid
`YYYYMMDDHHMMSS` timestamp, `form_title` propagates the parse error
(raises) instead of falling through to the non-packed normalization. -/
theorem c8_invalid_packed_raises (t a d : String) (ds : List Char)
    (hf : findPacked d.data = some ds) (hv : validTimestamp ds = false) :
    form_title t a d = .error () := by
  unfold form_title
  rw [hf]
  simp [hv]

/-- C8 witness: month 13 matches the pattern but fails to parse, so the
error propagates. -/
theorem c8_witness : form_title "x" "y" "D:20231301000000" = .error () :=
  c8_invalid_packed_raises "x" "y" "D:20231301000000" "20231301000000".data rfl
    (by decide)

/-- A position whose head is not `D` starts no match of `D:(\d{14})`. -/
theorem packedAt_of_ne (c : Char) (l : List Char) (h : c ≠ 'D') :
    packedAt (c :: l) = none := by
  cases l with
  | nil => rfl
  | cons c2 rest =>
    show (if c = 'D' ∧ c2 = ':' then
        (let ds := rest.take 14
         if ds.length = 14 ∧ ds.all Char.isDigit then some ds else none)
      else none) = none
    rw [if_neg (fun hc => h hc.1)]

/-- The leftmost-match search skips any prefix free of `D`. -/
theorem findPacked_append (pre tail : List Char) (hD : 'D' ∉ pre) :
    findPacked (pre ++ tail) = findPacked tail := by
  induction pre with
  | nil => rfl
  | cons c cs ih =>
    rw [List.cons_append, findPacked,
        packedAt_of_ne c _ (fun hc => hD (hc ▸ List.mem_cons_self c cs))]
    exact ih (fun hc => hD (List.mem_cons_of_mem c hc))

/-- At a `D:` followed by at least 14 digits, the match captures exactly
the first 14 digits. -/
theorem findPacked_cons_match (ds suf : List Char) (hlen : ds.length = 14)
    (hdig : ds.all Char.isDigit = true) :
    findPacked ('D' :: ':' :: (ds ++ suf)) = some ds := by
  have htake : (ds ++ suf).take 14 = ds := by
    rw [← hlen, List.take_left]
  rw [findPacked, packedAt, htake]
  simp [hlen, hdig]

/-- C10: the packed-date branch fires on a substring match — `D:` plus 14
digits occurring anywhere in the creation-date string — and replaces the
whole creation-date value by the reformatted timestamp of the first such
run, discarding all surrounding text (here: any prefix without a `D` and
an arbitrary suffix). -/
theorem c10_packed_substring (t a : String) (pre suf ds : List Char)
    (hD : 'D' ∉ pre) (hlen : ds.length = 14) (hdig : ds.all Char.isDigit = true)
    (hv : validTimestamp ds = true) :
    form_title t a ⟨pre ++ 'D' :: ':' :: (ds ++ suf)⟩ =
      .ok ⟨assembleTitle (normField t.data) (normField a.data)
            (reformatTimestamp ds)⟩ := by
  unfold form_title
  have hdata : (String.mk (pre ++ 'D' :: ':' :: (ds ++ suf))).data =
      pre ++ 'D' :: ':' :: (ds ++ suf) := rfl
  rw [hdata, findPacked_append pre _ hD, findPacked_cons_match ds suf hlen hdig]
  simp [hv]

/-- C10 witness: surrounding text (`at ` before, `Zrest` after) is
discarded; the packed run alone becomes the creation date. -/
theorem c10_witness :
    form_title "T" "A" "at D:20230901000000Zrest" =
      .ok "T[A_2023-09-01_00-00-00]" := by
  have h := c10_packed_substring "T" "A" "at ".data "Zrest".data
    "20230901000000".data (by decide) (by decide) (by decide) (by decide)
  exact h

/-- The directory name the claim describes: the document's file name
itself with every character outside word characters, `.` and `-`
replaced by `_` (no removal of `.pdf`; stated here only to compare with
what the code computes). -/
def claimSanitizedName (name : String) : String :=
  ⟨name.data.map (fun c => if isFileChar c then c else '_')⟩

/-- C9 counterexample: for the file name `my book.pdf` the code's
directory name is `my_book` — the substring `.pdf` is removed before
sanitizing — while sanitizing the file name as the claim states yields
`my_book.pdf`. -/
theorem c9_counterexample :
    safeName "my book.pdf" = "my_book" ∧
    claimSanitizedName "my book.pdf" = "my_book.pdf" ∧
    safeName "my book.pdf" ≠ claimSanitizedName "my book.pdf" := by
  refine ⟨by decide, by decide, by decide⟩

/-- Character-for-character: the sanitizing pass replaces exactly the
characters outside `[\w.-]` by `_`. -/
theorem subFileChars_eq_map (l : List Char) :
    subFileChars l = l.map (fun c => if isFileChar c then c else '_') := by
  induction l with
  | nil => rfl
  | cons c cs ih => rw [subFileChars, List.map_cons, ih]

/-- C9 amended: on the visual path (with rasterization succeeding) the
first recorded effect is the creation of the per-document directory
`./output/<safe_name>` under the output root, where `safe_name` is the
file name with every occurrence of the substring `.pdf` removed and then
every character outside word characters, `.` and `-` replaced by `_`. -/
theorem c9_amended_output_dir (env : OcrEnv) (name : String) (img : RawImage)
    (hr : env.rasterize = .ok img) :
    (∃ evs, capture_title env name =
      .ok (Ev.mkdir ("./output/" ++ safeName name) :: evs)) ∧
    safeName name =
      ⟨(removePdf name.data).map (fun c => if isFileChar c then c else '_')⟩ := by
  constructor
  · unfold capture_title
    rw [hr]
    exact ⟨_, rfl⟩
  · unfold safeName
    rw [subFileChars_eq_map]

def c9Env : OcrEnv :=
  { rasterize := .ok { width := 100, height := 100, pixel := fun _ _ => 0 },
    layoutOutput := [], ocrResult := [] }

/-- C9 witness: for the name `my scan.pdf` the directory
`./output/my_scan` is created. -/
theorem c9_witness :
    (∃ evs, capture_title c9Env "my scan.pdf" =
      .ok (Ev.mkdir ("./output/" ++ safeName "my scan.pdf") :: evs)) ∧
    safeName "my scan.pdf" =
      ⟨(removePdf "my scan.pdf".data).map (fun c => if isFileChar c then c else '_')⟩ :=
  c9_amended_output_dir c9Env "my scan.pdf"
    { width := 100, height := 100, pixel := fun _ _ => 0 } rfl

end MetaOcr
